import Mathlib

/-!
Shallow embedding of the Excel diff engine (`src/app.py`) and verification
of the spec's claims about it.

The engine works on tables of string cells.  A pandas `DataFrame` is
modelled as a header row (`columns`) plus a list of data rows; all cell
values are strings (the reader collapses other types to strings before the
engine runs).  The diff result is modelled by `SheetDiff`, mirroring the
dictionary shape built by `compare_dataframes`.
-/

namespace ExcelDiff

/-- Status carried by a diff row or a diff cell
(`"same" | "modified" | "added" | "deleted"` in the JSON output). -/
inductive CellStatus where
  | same
  | modified
  | added
  | deleted
deriving DecidableEq, Repr

/-- One cell of a diff row: `{"value": ..., "old_value": ..., "status": ...}`. -/
structure Cell where
  value : String
  old_value : Option String
  status : CellStatus
deriving DecidableEq, Repr

/-- One row of the diff: `{"status": ..., "cells": [...]}`. -/
structure RowDiff where
  status : CellStatus
  cells : List Cell
deriving DecidableEq, Repr

/-- The per-sheet summary counters of `compare_dataframes`. -/
structure Summary where
  total_rows : Nat
  added : Nat
  deleted : Nat
  modified : Nat
  unchanged : Nat
deriving DecidableEq, Repr

/-- The result of `compare_dataframes`: merged headers, diff rows, summary. -/
structure SheetDiff where
  headers : List String
  rows : List RowDiff
  summary : Summary
deriving DecidableEq, Repr

/-- A pandas `DataFrame` as the engine sees it: a list of header labels
(`df.columns`) and a list of rows of string cells.  Rows may be jagged;
`get_row_values` pads them. -/
structure DataFrame where
  columns : List String
  rows : List (List String)
deriving DecidableEq, Repr

/-- Python `str.strip()`: drop leading and trailing whitespace.  Defined by
structural recursion over the character list so that concrete instances
evaluate in the kernel. -/
def str_trim (s : String) : String :=
  ⟨((s.data.dropWhile Char.isWhitespace).reverse.dropWhile Char.isWhitespace).reverse⟩

/-- Python `str.lower()` (ASCII case fold). -/
def str_lower (s : String) : String := ⟨s.data.map Char.toLower⟩

/-- Python `str.upper()` (ASCII case fold). -/
def str_upper (s : String) : String := ⟨s.data.map Char.toUpper⟩

/-- Decimal value of a character that Python's `int(...)` accepts (Unicode
category Nd).  The model enumerates the ASCII digits and, as representative
non-ASCII Nd members, the Arabic-Indic digits; other Nd code points are
outside the modelled alphabet. -/
def pyDecimalVal (c : Char) : Option Nat :=
  if c.isDigit then some (c.toNat - 48)
  else if 0x660 ≤ c.toNat ∧ c.toNat ≤ 0x669 then some (c.toNat - 0x660)
  else none

/-- Digit-valued characters that Python's `str.isdigit()` accepts but
`int(...)` rejects with `ValueError` (`Numeric_Type=Digit` without being
decimal): the superscript and subscript digits.  The full Unicode class is
larger; these members suffice to exhibit the source's raise path. -/
def pyNonDecimalDigit (c : Char) : Bool :=
  ['⁰', '¹', '²', '³', '⁴', '⁵', '⁶', '⁷', '⁸', '⁹',
   '₀', '₁', '₂', '₃', '₄', '₅', '₆', '₇', '₈', '₉'].contains c

/-- Non-ASCII letters of the model: the Greek capitals, which Python's
`str.isalpha()` accepts and `str.upper()` leaves fixed (so the ASCII
`str_upper` below is exact on them).  Other Unicode letters are outside the
modelled alphabet. -/
def pyUpperGreekLetter (c : Char) : Bool :=
  (0x391 ≤ c.toNat && c.toNat ≤ 0x3A9) && !(c.toNat == 0x3A2)

/-- Python `str.isdigit()`: non-empty and every character digit-valued —
including non-decimal digit characters such as `'²'` that `int(...)` then
rejects. -/
def str_isdigit (s : String) : Bool :=
  !s.data.isEmpty && s.data.all (fun c => (pyDecimalVal c).isSome || pyNonDecimalDigit c)

/-- Python `str.isalpha()`: non-empty and all letters (ASCII letters plus
the modelled non-ASCII letters). -/
def str_isalpha (s : String) : Bool :=
  !s.data.isEmpty && s.data.all (fun c => c.isAlpha || pyUpperGreekLetter c)

/-- Python `int(...)`: succeeds exactly when every character is a decimal
digit (category Nd); on anything else — in particular a string whose
`isdigit()` was true through a superscript digit — it raises `ValueError`,
modelled as `Except.error`. -/
def pyInt (s : String) : Except Unit Nat :=
  if !s.data.isEmpty && s.data.all (fun c => (pyDecimalVal c).isSome) then
    Except.ok (s.data.foldl (fun n c => n * 10 + (pyDecimalVal c).getD 0) 0)
  else Except.error ()

/-- `safe_str` (src/app.py line 66): values are already strings in the model,
so only the `.strip()` remains. -/
def safe_str (s : String) : String := str_trim s

/-- `compare_values` (src/app.py line 73). -/
def compare_values (val1 val2 : String) (case_sensitive : Bool) : Bool :=
  if case_sensitive then val1 == val2
  else str_lower val1 == str_lower val2

/-- `get_row_values` (src/app.py lines 122-129): row `row_idx` of `df`,
padded/truncated to `cols` entries; positions beyond the column count are
empty strings, data values go through `safe_str`. -/
def get_row_values (df : DataFrame) (row_idx cols : Nat) : List String :=
  if df.rows.length ≤ row_idx then List.replicate cols ""
  else
    (List.range cols).map (fun i =>
      if i < df.columns.length then safe_str ((df.rows.getD row_idx []).getD i "")
      else "")

/-- First value bound to `key` in an association list, mirroring Python
`d[key]` / `key in d` on a dict that is represented entry by entry. -/
def dictGet : List (String × α) → String → Option α
  | [], _ => none
  | (k, v) :: m, key => if key = k then some v else dictGet m key

/-- Keys of the association list, in storage order (Python `d.keys()`). -/
def dictKeys (m : List (String × α)) : List String := m.map Prod.fst

/-- Replace the value stored at `key`, keeping the entry's position. -/
def dictReplace : List (String × α) → String → α → List (String × α)
  | [], _, _ => []
  | p :: m, key, v => if p.1 = key then (key, v) :: m else p :: dictReplace m key v

/-- Python `d[key] = v` on an insertion-ordered dict: an existing key keeps
its position and gets the new value, a new key is appended at the end. -/
def dictInsert (m : List (String × α)) (key : String) (v : α) : List (String × α) :=
  if (dictGet m key).isSome then dictReplace m key v
  else m ++ [(key, v)]

/-- One iteration of the index-building loops (src/app.py lines 135-139 and
142-146): insert the row under its key unless the key is empty. -/
def indexStep (df : DataFrame) (key_column max_cols : Nat)
    (index : List (String × (Nat × List String))) (idx : Nat) :
    List (String × (Nat × List String)) :=
  let row := get_row_values df idx max_cols
  let key := row.getD key_column ""
  if key ≠ "" then dictInsert index key (idx, row) else index

/-- The index-building loops of `compare_dataframes` (src/app.py
lines 134-146): map each non-empty key value to `(row_idx, row_values)`,
later rows overwriting earlier ones. -/
def buildIndex (df : DataFrame) (key_column max_cols : Nat) :
    List (String × (Nat × List String)) :=
  (List.range df.rows.length).foldl (indexStep df key_column max_cols) []

/-- Python `dict.fromkeys` applied to a key list (src/app.py line 149):
keep the first occurrence of each key, in order. -/
def dedupKeys (l : List String) : List String :=
  l.foldl (fun acc k => if k ∈ acc then acc else acc ++ [k]) []

/-- The per-column cell comparison loop shared by both matching strategies
(src/app.py lines 160-172 and 228-240). -/
def compare_cells (row1 row2 : List String) (max_cols : Nat)
    (case_sensitive : Bool) : List Cell :=
  (List.range max_cols).map (fun col_idx =>
    let v1 := row1.getD col_idx ""
    let v2 := row2.getD col_idx ""
    if compare_values v1 v2 case_sensitive then
      { value := v2, old_value := none, status := CellStatus.same }
    else
      { value := v2, old_value := some v1, status := CellStatus.modified })

/-- A row present only in the compare file (src/app.py lines 190-197
and 212-218). -/
def addedRow (row : List String) : RowDiff :=
  { status := CellStatus.added
    cells := row.map (fun v =>
      { value := v, old_value := none, status := CellStatus.added }) }

/-- A row present only in the original file (src/app.py lines 181-188
and 219-225). -/
def deletedRow (row : List String) : RowDiff :=
  { status := CellStatus.deleted
    cells := row.map (fun v =>
      { value := v, old_value := none, status := CellStatus.deleted }) }

/-- A row present on both sides: cell-compare every column; the row is
`modified` iff some cell is (`has_diff` in the source). -/
def comparedRow (row1 row2 : List String) (max_cols : Nat)
    (case_sensitive : Bool) : RowDiff :=
  let cells := compare_cells row1 row2 max_cols case_sensitive
  if cells.any (fun c => c.status == CellStatus.modified) then
    { status := CellStatus.modified, cells := cells }
  else
    { status := CellStatus.same, cells := cells }

/-- State threaded through the row loops: the rows emitted so far and the
summary counters (`result["rows"]` / `result["summary"]`). -/
structure DiffState where
  rows : List RowDiff
  summary : Summary
deriving DecidableEq, Repr

/-- Increment the summary counter matching a row status, as every branch of
the source does right after appending its row. -/
def bumpSummary (s : Summary) : CellStatus → Summary
  | CellStatus.added => { s with added := s.added + 1 }
  | CellStatus.deleted => { s with deleted := s.deleted + 1 }
  | CellStatus.modified => { s with modified := s.modified + 1 }
  | CellStatus.same => { s with unchanged := s.unchanged + 1 }

/-- Append one diff row and bump its status counter. -/
def pushRow (st : DiffState) (r : RowDiff) : DiffState :=
  { rows := st.rows ++ [r], summary := bumpSummary st.summary r.status }

def emptySummary : Summary :=
  { total_rows := 0, added := 0, deleted := 0, modified := 0, unchanged := 0 }

def initState : DiffState := { rows := [], summary := emptySummary }

/-- The row the key loop emits for `key` (src/app.py lines 151-197).
The `none, none` case cannot arise: every iterated key is in one of the
indexes (the source would raise `KeyError` there). -/
def keyRow (index1 index2 : List (String × (Nat × List String)))
    (max_cols : Nat) (case_sensitive : Bool) (key : String) : RowDiff :=
  match dictGet index1 key, dictGet index2 key with
  | some e1, some e2 => comparedRow e1.2 e2.2 max_cols case_sensitive
  | some e1, none => deletedRow e1.2
  | none, some e2 => addedRow e2.2
  | none, none => { status := CellStatus.same, cells := [] }

/-- One iteration of the key loop. -/
def keyStep (index1 index2 : List (String × (Nat × List String)))
    (max_cols : Nat) (case_sensitive : Bool) (st : DiffState) (key : String) :
    DiffState :=
  match dictGet index1 key, dictGet index2 key with
  | none, none => st
  | _, _ => pushRow st (keyRow index1 index2 max_cols case_sensitive key)

/-- The key-column branch of `compare_dataframes` (src/app.py
lines 132-199). -/
def keyed_diff (df1 df2 : DataFrame) (key_column max_cols : Nat)
    (case_sensitive : Bool) (headers : List String) : SheetDiff :=
  let index1 := buildIndex df1 key_column max_cols
  let index2 := buildIndex df2 key_column max_cols
  let all_keys := dedupKeys (dictKeys index1 ++ dictKeys index2)
  let st := all_keys.foldl (keyStep index1 index2 max_cols case_sensitive) initState
  { headers := headers, rows := st.rows
    summary := { st.summary with total_rows := st.rows.length } }

/-- The row the positional loop emits for `row_idx` (src/app.py
lines 205-247). -/
def posRow (df1 df2 : DataFrame) (max_cols : Nat) (case_sensitive : Bool)
    (row_idx : Nat) : RowDiff :=
  let row1 := get_row_values df1 row_idx max_cols
  let row2 := get_row_values df2 row_idx max_cols
  if df1.rows.length ≤ row_idx then addedRow row2
  else if df2.rows.length ≤ row_idx then deletedRow row1
  else comparedRow row1 row2 max_cols case_sensitive

/-- One iteration of the positional loop. -/
def posStep (df1 df2 : DataFrame) (max_cols : Nat) (case_sensitive : Bool)
    (st : DiffState) (row_idx : Nat) : DiffState :=
  pushRow st (posRow df1 df2 max_cols case_sensitive row_idx)

/-- The positional branch of `compare_dataframes` (src/app.py
lines 201-249); `total_rows` is set to `max_rows` after the loop. -/
def positional_diff (df1 df2 : DataFrame) (max_cols : Nat)
    (case_sensitive : Bool) (headers : List String) : SheetDiff :=
  let max_rows := max df1.rows.length df2.rows.length
  let st := (List.range max_rows).foldl
    (posStep df1 df2 max_cols case_sensitive) initState
  { headers := headers, rows := st.rows
    summary := { st.summary with total_rows := max_rows } }

/-- The header merge of `compare_dataframes` (src/app.py lines 102-106):
the compare file's label wins when non-empty, else the original's, else
empty. -/
def merged_headers (headers1 headers2 : List String) (max_cols : Nat) :
    List String :=
  (List.range max_cols).map (fun i =>
    let h1 := headers1.getD i ""
    let h2 := headers2.getD i ""
    if h2 ≠ "" then h2 else h1)

/-- `compare_dataframes` (src/app.py lines 80-251).  `key_column` is an
`Int` because the caller's parse of a 1-based digit string can produce `-1`;
the branch guard `key_column is not None and 0 <= key_column < max_cols`
is modelled exactly. -/
def compare_dataframes (df1 df2 : DataFrame) (key_column : Option Int)
    (case_sensitive : Bool) : SheetDiff :=
  let headers1 := df1.columns.map safe_str
  let headers2 := df2.columns.map safe_str
  let max_cols := max headers1.length headers2.length
  let headers := merged_headers headers1 headers2 max_cols
  match key_column with
  | some kc =>
    if 0 ≤ kc ∧ kc < (max_cols : Int) then
      keyed_diff df1 df2 kc.toNat max_cols case_sensitive headers
    else
      positional_diff df1 df2 max_cols case_sensitive headers
  | none => positional_diff df1 df2 max_cols case_sensitive headers

/-- The key-column parsing of `compare_excel_files` (src/app.py
lines 268-275): `None`/empty is no key; an `isdigit()` string goes through
`int(...)` (1-based) — which raises `ValueError` when the string contains a
non-decimal digit character; a single letter is `ord()`-based; anything else
is no key.  Python's truthiness test `if key_column:` makes the empty string
behave like `None`. -/
def parse_key_column : Option String → Except Unit (Option Int)
  | none => Except.ok none
  | some s =>
    if s = "" then Except.ok none
    else
      let t := str_upper (str_trim s)
      if str_isdigit t then
        match pyInt t with
        | Except.ok n => Except.ok (some ((n : Int) - 1))
        | Except.error e => Except.error e
      else if t.length = 1 ∧ str_isalpha t then
        Except.ok (some (((t.data.headD 'A').toNat : Int) - 65))
      else Except.ok none

/-- Key-spec resolution followed by one sheet comparison, as
`compare_excel_files` (src/app.py lines 268-297) wires them: a `ValueError`
raised by `int(...)` propagates out instead of producing a diff. -/
def compare_with_key_spec (df1 df2 : DataFrame) (key_spec : Option String)
    (case_sensitive : Bool) : Except Unit SheetDiff :=
  match parse_key_column key_spec with
  | Except.ok kc => Except.ok (compare_dataframes df1 df2 kc case_sensitive)
  | Except.error e => Except.error e

/-- Number of diff rows carrying a given status. -/
def countStatus (s : CellStatus) (rows : List RowDiff) : Nat :=
  rows.countP (fun r => r.status == s)

/-- The summary obtained by counting a row list by status. -/
def statusCounts (rows : List RowDiff) (total : Nat) : Summary :=
  { total_rows := total
    added := countStatus CellStatus.added rows
    deleted := countStatus CellStatus.deleted rows
    modified := countStatus CellStatus.modified rows
    unchanged := countStatus CellStatus.same rows }

/-- Keys iterated by the key loop. -/
def allKeys (df1 df2 : DataFrame) (key_column max_cols : Nat) : List String :=
  dedupKeys (dictKeys (buildIndex df1 key_column max_cols) ++
    dictKeys (buildIndex df2 key_column max_cols))

/-- The merged column count of a table pair. -/
def diffMaxCols (df1 df2 : DataFrame) : Nat :=
  max df1.columns.length df2.columns.length

/-- The merged header row of a table pair. -/
def diffHeaders (df1 df2 : DataFrame) : List String :=
  merged_headers (df1.columns.map safe_str) (df2.columns.map safe_str)
    (diffMaxCols df1 df2)

/-! ### Example tables used by witnesses -/

/-- The spec's concrete scenario, original side. -/
def exTableA : DataFrame := ⟨["id", "name"], [["1", "Alice"], ["2", "Bob"]]⟩

/-- The spec's concrete scenario, compare side. -/
def exTableB : DataFrame := ⟨["id", "name"], [["1", "Alice"], ["3", "Carol"]]⟩

/-- The key value of row `idx` of `df`, as the key loop extracts it. -/
def keyAt (df : DataFrame) (key_column max_cols idx : Nat) : String :=
  (get_row_values df idx max_cols).getD key_column ""

/-- The non-empty key values of `df`, in row order (with repetitions). -/
def row_keys (df : DataFrame) (key_column max_cols : Nat) : List String :=
  ((List.range df.rows.length).map (keyAt df key_column max_cols)).filter
    (fun k => k ≠ "")

/-- Mirror of one diff cell under swapping the two input tables:
`added` and `deleted` swap, `same` is untouched, a `modified` cell swaps
`value` and `old_value`. -/
def mirrorCell (c : Cell) : Cell :=
  match c.status with
  | CellStatus.added => { c with status := CellStatus.deleted }
  | CellStatus.deleted => { c with status := CellStatus.added }
  | CellStatus.same => c
  | CellStatus.modified =>
    { value := c.old_value.getD "", old_value := some c.value
      status := CellStatus.modified }

/-- Mirror of one diff row under swapping the two input tables. -/
def mirrorRow (r : RowDiff) : RowDiff :=
  { status :=
      match r.status with
      | CellStatus.added => CellStatus.deleted
      | CellStatus.deleted => CellStatus.added
      | s => s
    cells := r.cells.map mirrorCell }

/-! ### Dictionary lemmas -/

theorem dictGet_dictReplace_self {α : Type} (m : List (String × α)) (k : String) (v : α)
    (h : (dictGet m k).isSome) :
    dictGet (dictReplace m k v) k = some v := by
  induction m with
  | nil => simp [dictGet] at h
  | cons a m ih =>
    obtain ⟨ka, va⟩ := a
    by_cases hk : ka = k
    · simp [dictReplace, hk, dictGet]
    · have hne : ¬k = ka := fun hh => hk hh.symm
      simp only [dictGet, if_neg hne] at h
      simp [dictReplace, hk, dictGet, if_neg hne, ih h]

theorem dictGet_dictReplace_ne {α : Type} (m : List (String × α)) (k key : String) (v : α)
    (h : key ≠ k) :
    dictGet (dictReplace m k v) key = dictGet m key := by
  induction m with
  | nil => simp [dictReplace]
  | cons a m ih =>
    obtain ⟨ka, va⟩ := a
    by_cases hk : ka = k
    · subst hk
      simp [dictReplace, dictGet, if_neg h]
    · by_cases hkey : key = ka
      · simp [dictReplace, hk, dictGet, if_pos hkey]
      · simp [dictReplace, hk, dictGet, if_neg hkey, ih]

theorem dictGet_append_single {α : Type} (m : List (String × α)) (k : String) (v : α)
    (h : dictGet m k = none) :
    dictGet (m ++ [(k, v)]) k = some v := by
  induction m with
  | nil => simp [dictGet]
  | cons a m ih =>
    obtain ⟨ka, va⟩ := a
    by_cases hk : k = ka
    · simp [dictGet, if_pos hk] at h
    · simp only [dictGet, if_neg hk] at h
      simp [dictGet, if_neg hk, ih h]

theorem dictGet_append_single_ne {α : Type} (m : List (String × α)) (k key : String) (v : α)
    (h : key ≠ k) :
    dictGet (m ++ [(k, v)]) key = dictGet m key := by
  induction m with
  | nil => simp [dictGet, if_neg h]
  | cons a m ih =>
    obtain ⟨ka, va⟩ := a
    by_cases hkey : key = ka
    · simp [dictGet, if_pos hkey]
    · simp [dictGet, if_neg hkey, ih]

theorem dictGet_dictInsert_self {α : Type} (m : List (String × α)) (k : String) (v : α) :
    dictGet (dictInsert m k v) k = some v := by
  unfold dictInsert
  by_cases h : (dictGet m k).isSome
  · rw [if_pos h]
    exact dictGet_dictReplace_self m k v h
  · rw [if_neg h]
    exact dictGet_append_single m k v (by
      cases hg : dictGet m k with
      | none => rfl
      | some w => rw [hg] at h; simp at h)

theorem dictGet_dictInsert_ne {α : Type} (m : List (String × α)) (k key : String) (v : α)
    (h : key ≠ k) :
    dictGet (dictInsert m k v) key = dictGet m key := by
  unfold dictInsert
  by_cases hs : (dictGet m k).isSome
  · rw [if_pos hs]
    exact dictGet_dictReplace_ne m k key v h
  · rw [if_neg hs]
    exact dictGet_append_single_ne m k key v h

theorem mem_dictKeys_iff {α : Type} (m : List (String × α)) (key : String) :
    key ∈ dictKeys m ↔ (dictGet m key).isSome := by
  induction m with
  | nil => simp [dictKeys, dictGet]
  | cons a m ih =>
    obtain ⟨ka, va⟩ := a
    have hcons : dictKeys ((ka, va) :: m) = ka :: dictKeys m := rfl
    rw [hcons, List.mem_cons, ih]
    by_cases hk : key = ka
    · simp [dictGet, if_pos hk, hk]
    · simp [dictGet, if_neg hk, hk]

theorem dictKeys_dictReplace {α : Type} (m : List (String × α)) (k : String) (v : α) :
    dictKeys (dictReplace m k v) = dictKeys m := by
  induction m with
  | nil => simp [dictReplace]
  | cons a m ih =>
    obtain ⟨ka, va⟩ := a
    by_cases hk : ka = k
    · simp [dictReplace, hk, dictKeys]
    · simp [dictReplace, hk, dictKeys] at ih ⊢
      exact ih

theorem dictKeys_dictInsert {α : Type} (m : List (String × α)) (k : String) (v : α) :
    dictKeys (dictInsert m k v) =
      if k ∈ dictKeys m then dictKeys m else dictKeys m ++ [k] := by
  unfold dictInsert
  by_cases hs : (dictGet m k).isSome
  · rw [if_pos hs, if_pos ((mem_dictKeys_iff m k).mpr hs)]
    exact dictKeys_dictReplace m k v
  · rw [if_neg hs, if_neg (fun hm => hs ((mem_dictKeys_iff m k).mp hm))]
    simp [dictKeys]

/-! ### Deduplication lemmas -/

theorem dedup_fold_mem (l : List String) (acc : List String) (x : String) :
    x ∈ l.foldl (fun acc k => if k ∈ acc then acc else acc ++ [k]) acc ↔
      x ∈ acc ∨ x ∈ l := by
  induction l generalizing acc with
  | nil => simp
  | cons a l ih =>
    simp only [List.foldl_cons, ih, List.mem_cons]
    by_cases ha : a ∈ acc
    · rw [if_pos ha]
      constructor
      · rintro (h | h)
        · exact Or.inl h
        · exact Or.inr (Or.inr h)
      · rintro (h | h | h)
        · exact Or.inl h
        · exact Or.inl (h ▸ ha)
        · exact Or.inr h
    · rw [if_neg ha]
      simp only [List.mem_append, List.mem_singleton]
      tauto

theorem mem_dedupKeys (l : List String) (x : String) :
    x ∈ dedupKeys l ↔ x ∈ l := by
  unfold dedupKeys
  rw [dedup_fold_mem]
  simp

theorem dedup_fold_nodup (l : List String) (acc : List String) (h : acc.Nodup) :
    (l.foldl (fun acc k => if k ∈ acc then acc else acc ++ [k]) acc).Nodup := by
  induction l generalizing acc with
  | nil => exact h
  | cons a l ih =>
    simp only [List.foldl_cons]
    by_cases ha : a ∈ acc
    · rw [if_pos ha]; exact ih acc h
    · rw [if_neg ha]
      exact ih _ (by simp [List.nodup_append, h, ha])

theorem dedupKeys_nodup (l : List String) : (dedupKeys l).Nodup :=
  dedup_fold_nodup l [] List.nodup_nil

/-! ### Loop characterizations

The row loops of `compare_dataframes` are `foldl`s that push one row per
iteration; these lemmas expose the emitted rows as a `map` over the
iteration space and the summary counters as status counts. -/

theorem summary_fold_eq (rows : List RowDiff) (sm : Summary) :
    rows.foldl (fun acc r => bumpSummary acc r.status) sm =
      { total_rows := sm.total_rows
        added := sm.added + countStatus CellStatus.added rows
        deleted := sm.deleted + countStatus CellStatus.deleted rows
        modified := sm.modified + countStatus CellStatus.modified rows
        unchanged := sm.unchanged + countStatus CellStatus.same rows } := by
  induction rows generalizing sm with
  | nil => simp [countStatus]
  | cons r rows ih =>
    rw [List.foldl_cons, ih]
    cases hs : r.status <;>
      simp [bumpSummary, countStatus, List.countP_cons, hs] <;> omega

theorem countStatus_partition (rows : List RowDiff) :
    countStatus CellStatus.added rows + countStatus CellStatus.deleted rows +
      countStatus CellStatus.modified rows + countStatus CellStatus.same rows =
      rows.length := by
  induction rows with
  | nil => simp [countStatus]
  | cons r rows ih =>
    cases hs : r.status <;>
      simp [countStatus, List.countP_cons, hs] at ih ⊢ <;> omega

theorem foldl_push_eq {α : Type} (f : α → RowDiff) (l : List α) (st : DiffState) :
    l.foldl (fun s a => pushRow s (f a)) st =
      { rows := st.rows ++ l.map f
        summary := (l.map f).foldl (fun acc r => bumpSummary acc r.status) st.summary } := by
  induction l generalizing st with
  | nil => simp
  | cons a l ih =>
    rw [List.foldl_cons, ih]
    simp [pushRow]

theorem keyStep_eq_push (index1 index2 : List (String × (Nat × List String)))
    (max_cols : Nat) (cs : Bool) (st : DiffState) (key : String)
    (h : (dictGet index1 key).isSome ∨ (dictGet index2 key).isSome) :
    keyStep index1 index2 max_cols cs st key =
      pushRow st (keyRow index1 index2 max_cols cs key) := by
  unfold keyStep
  cases h1 : dictGet index1 key <;> cases h2 : dictGet index2 key <;>
    first
      | rfl
      | (rw [h1, h2] at h; simp at h)

theorem foldl_keyStep_eq (index1 index2 : List (String × (Nat × List String)))
    (max_cols : Nat) (cs : Bool) (l : List String) (st : DiffState)
    (h : ∀ k ∈ l, (dictGet index1 k).isSome ∨ (dictGet index2 k).isSome) :
    l.foldl (keyStep index1 index2 max_cols cs) st =
      { rows := st.rows ++ l.map (keyRow index1 index2 max_cols cs)
        summary := (l.map (keyRow index1 index2 max_cols cs)).foldl
          (fun acc r => bumpSummary acc r.status) st.summary } := by
  induction l generalizing st with
  | nil => simp
  | cons a l ih =>
    rw [List.foldl_cons,
      keyStep_eq_push index1 index2 max_cols cs st a (h a (List.mem_cons_self a l)),
      ih _ (fun k hk => h k (List.mem_cons_of_mem a hk))]
    simp [pushRow]

theorem allKeys_present (df1 df2 : DataFrame) (key_column max_cols : Nat)
    (k : String) (h : k ∈ allKeys df1 df2 key_column max_cols) :
    (dictGet (buildIndex df1 key_column max_cols) k).isSome ∨
      (dictGet (buildIndex df2 key_column max_cols) k).isSome := by
  rw [allKeys, mem_dedupKeys, List.mem_append, mem_dictKeys_iff, mem_dictKeys_iff] at h
  exact h

theorem keyed_diff_eq (df1 df2 : DataFrame) (key_column max_cols : Nat)
    (cs : Bool) (headers : List String) :
    keyed_diff df1 df2 key_column max_cols cs headers =
      { headers := headers
        rows := (allKeys df1 df2 key_column max_cols).map
          (keyRow (buildIndex df1 key_column max_cols)
            (buildIndex df2 key_column max_cols) max_cols cs)
        summary := statusCounts
          ((allKeys df1 df2 key_column max_cols).map
            (keyRow (buildIndex df1 key_column max_cols)
              (buildIndex df2 key_column max_cols) max_cols cs))
          ((allKeys df1 df2 key_column max_cols).length) } := by
  simp only [keyed_diff]
  have hall : dedupKeys (dictKeys (buildIndex df1 key_column max_cols) ++
      dictKeys (buildIndex df2 key_column max_cols)) =
      allKeys df1 df2 key_column max_cols := rfl
  rw [hall,
    foldl_keyStep_eq _ _ _ _ _ _ (fun k hk => allKeys_present df1 df2 key_column max_cols k hk),
    summary_fold_eq]
  simp [initState, emptySummary, statusCounts]

theorem positional_diff_eq (df1 df2 : DataFrame) (max_cols : Nat)
    (cs : Bool) (headers : List String) :
    positional_diff df1 df2 max_cols cs headers =
      { headers := headers
        rows := (List.range (max df1.rows.length df2.rows.length)).map
          (posRow df1 df2 max_cols cs)
        summary := statusCounts
          ((List.range (max df1.rows.length df2.rows.length)).map
            (posRow df1 df2 max_cols cs))
          (max df1.rows.length df2.rows.length) } := by
  simp only [positional_diff]
  have hstep : posStep df1 df2 max_cols cs =
      fun st i => pushRow st (posRow df1 df2 max_cols cs i) := rfl
  rw [hstep, foldl_push_eq, summary_fold_eq]
  simp [initState, emptySummary, statusCounts]

/-! ### Branch dispatch of `compare_dataframes` -/

theorem compare_dataframes_none (df1 df2 : DataFrame) (cs : Bool) :
    compare_dataframes df1 df2 none cs =
      positional_diff df1 df2 (diffMaxCols df1 df2) cs (diffHeaders df1 df2) := by
  unfold compare_dataframes diffHeaders diffMaxCols
  simp

theorem compare_dataframes_some_invalid (df1 df2 : DataFrame) (kc : Int) (cs : Bool)
    (h : kc < 0 ∨ (diffMaxCols df1 df2 : Int) ≤ kc) :
    compare_dataframes df1 df2 (some kc) cs =
      positional_diff df1 df2 (diffMaxCols df1 df2) cs (diffHeaders df1 df2) := by
  unfold compare_dataframes diffHeaders diffMaxCols
  have hcond : ¬(0 ≤ kc ∧ kc < ((max df1.columns.length df2.columns.length : Nat) : Int)) := by
    unfold diffMaxCols at h
    rcases h with h | h
    · exact fun hc => absurd hc.1 (by omega)
    · exact fun hc => absurd hc.2 (by omega)
  simp only [List.length_map]
  rw [if_neg hcond]

theorem compare_dataframes_some_valid (df1 df2 : DataFrame) (k : Nat) (cs : Bool)
    (h : k < diffMaxCols df1 df2) :
    compare_dataframes df1 df2 (some (k : Int)) cs =
      keyed_diff df1 df2 k (diffMaxCols df1 df2) cs (diffHeaders df1 df2) := by
  unfold compare_dataframes diffHeaders diffMaxCols
  have hcond : 0 ≤ (k : Int) ∧ (k : Int) < ((max df1.columns.length df2.columns.length : Nat) : Int) := by
    unfold diffMaxCols at h
    exact ⟨Int.ofNat_nonneg k, by omega⟩
  simp only [List.length_map]
  rw [if_pos hcond]
  simp

theorem compare_dataframes_branches (df1 df2 : DataFrame) (kc : Option Int) (cs : Bool) :
    (compare_dataframes df1 df2 kc cs =
      positional_diff df1 df2 (diffMaxCols df1 df2) cs (diffHeaders df1 df2)) ∨
    (∃ k : Nat, k < diffMaxCols df1 df2 ∧
      compare_dataframes df1 df2 kc cs =
        keyed_diff df1 df2 k (diffMaxCols df1 df2) cs (diffHeaders df1 df2)) := by
  cases kc with
  | none => exact Or.inl (compare_dataframes_none df1 df2 cs)
  | some kc =>
    by_cases h : 0 ≤ kc ∧ kc < (diffMaxCols df1 df2 : Int)
    · right
      refine ⟨kc.toNat, by omega, ?_⟩
      have hsome : (some kc : Option Int) = some ((kc.toNat : Nat) : Int) := by
        rw [Int.toNat_of_nonneg h.1]
      rw [hsome, compare_dataframes_some_valid df1 df2 kc.toNat cs (by omega)]
    · left
      exact compare_dataframes_some_invalid df1 df2 kc cs (by omega)

theorem compare_dataframes_headers (df1 df2 : DataFrame) (kc : Option Int) (cs : Bool) :
    (compare_dataframes df1 df2 kc cs).headers = diffHeaders df1 df2 := by
  rcases compare_dataframes_branches df1 df2 kc cs with h | ⟨k, _, h⟩ <;> rw [h] <;>
    simp [positional_diff, keyed_diff]

theorem getD_map_range {α : Type} (f : Nat → α) (n i : Nat) (d : α) (h : i < n) :
    (((List.range n).map f).getD i d) = f i := by
  rw [List.getD_eq_getElem?_getD, List.getElem?_map, List.getElem?_range h]
  rfl

theorem positional_diff_rows (df1 df2 : DataFrame) (mc : Nat) (cs : Bool)
    (hs : List String) :
    (positional_diff df1 df2 mc cs hs).rows =
      (List.range (max df1.rows.length df2.rows.length)).map (posRow df1 df2 mc cs) := by
  rw [positional_diff_eq]

theorem keyed_diff_rows (df1 df2 : DataFrame) (k mc : Nat) (cs : Bool)
    (hs : List String) :
    (keyed_diff df1 df2 k mc cs hs).rows =
      (allKeys df1 df2 k mc).map
        (keyRow (buildIndex df1 k mc) (buildIndex df2 k mc) mc cs) := by
  rw [keyed_diff_eq]


/-! ### Claim theorems -/

/-- C8: in the primary header-merge mode, the merged header has
`max (len headers1) (len headers2)` entries, and entry `i` is `headers2[i]`
when present and non-empty, else `headers1[i]` when present and non-empty,
else the empty string (out-of-range and final-fallback entries are `""`
under `getD _ ""`). -/
theorem c8_merged_headers (df1 df2 : DataFrame) (kc : Option Int) (cs : Bool) :
    (compare_dataframes df1 df2 kc cs).headers.length =
      max df1.columns.length df2.columns.length ∧
    ∀ i, i < max df1.columns.length df2.columns.length →
      (compare_dataframes df1 df2 kc cs).headers.getD i "" =
        (if (df2.columns.map safe_str).getD i "" ≠ "" then
          (df2.columns.map safe_str).getD i ""
        else (df1.columns.map safe_str).getD i "") := by
  constructor
  · rw [compare_dataframes_headers]
    simp [diffHeaders, merged_headers, diffMaxCols]
  · intro i hi
    rw [compare_dataframes_headers]
    unfold diffHeaders merged_headers diffMaxCols
    rw [getD_map_range _ _ _ _ (by simpa [diffMaxCols] using hi)]

theorem c8_witness :
    (compare_dataframes ⟨["a"], []⟩ ⟨["", "b"], []⟩ none true).headers.getD 0 "" =
      (if ((["", "b"] : List String).map safe_str).getD 0 "" ≠ "" then
        ((["", "b"] : List String).map safe_str).getD 0 ""
      else ((["a"] : List String).map safe_str).getD 0 "") :=
  (c8_merged_headers ⟨["a"], []⟩ ⟨["", "b"], []⟩ none true).2 0 (by decide)

theorem statusCounts_props (rows : List RowDiff) (total : Nat) (h : total = rows.length) :
    (statusCounts rows total).total_rows = rows.length ∧
    (statusCounts rows total).added + (statusCounts rows total).deleted +
      (statusCounts rows total).modified + (statusCounts rows total).unchanged =
      (statusCounts rows total).total_rows ∧
    (statusCounts rows total).added = countStatus CellStatus.added rows ∧
    (statusCounts rows total).deleted = countStatus CellStatus.deleted rows ∧
    (statusCounts rows total).modified = countStatus CellStatus.modified rows ∧
    (statusCounts rows total).unchanged = countStatus CellStatus.same rows := by
  subst h
  exact ⟨rfl, countStatus_partition rows, rfl, rfl, rfl, rfl⟩

/-- C5: for every input pair, strategy and configuration, the sheet summary
partitions the rows: `added+deleted+modified+unchanged = total_rows =
rows.length`, and each counter counts the rows of its status. -/
theorem c5_summary_partition (df1 df2 : DataFrame) (kc : Option Int) (cs : Bool) :
    (compare_dataframes df1 df2 kc cs).summary.total_rows =
      (compare_dataframes df1 df2 kc cs).rows.length ∧
    (compare_dataframes df1 df2 kc cs).summary.added +
      (compare_dataframes df1 df2 kc cs).summary.deleted +
      (compare_dataframes df1 df2 kc cs).summary.modified +
      (compare_dataframes df1 df2 kc cs).summary.unchanged =
      (compare_dataframes df1 df2 kc cs).summary.total_rows ∧
    (compare_dataframes df1 df2 kc cs).summary.added =
      countStatus CellStatus.added (compare_dataframes df1 df2 kc cs).rows ∧
    (compare_dataframes df1 df2 kc cs).summary.deleted =
      countStatus CellStatus.deleted (compare_dataframes df1 df2 kc cs).rows ∧
    (compare_dataframes df1 df2 kc cs).summary.modified =
      countStatus CellStatus.modified (compare_dataframes df1 df2 kc cs).rows ∧
    (compare_dataframes df1 df2 kc cs).summary.unchanged =
      countStatus CellStatus.same (compare_dataframes df1 df2 kc cs).rows := by
  rcases compare_dataframes_branches df1 df2 kc cs with h | ⟨k, _, h⟩ <;> rw [h]
  · rw [positional_diff_eq]
    exact statusCounts_props _ _ (by simp)
  · rw [keyed_diff_eq]
    exact statusCounts_props _ _ (by simp)

/-- C3 counterexample: the spec `"²"` is neither a decimal digit string nor
a single alphabetic letter, yet the comparison does not silently fall back:
Python's `isdigit()` accepts `"²"`, so `int("²")` is reached and raises
`ValueError`, which propagates out of the comparison. -/
theorem c3_counterexample :
    (∀ c ∈ "²".data, ¬(pyDecimalVal c).isSome = true) ∧
    str_isdigit (str_upper (str_trim "²")) = true ∧
    parse_key_column (some "²") = Except.error () ∧
    compare_with_key_spec exTableA exTableB (some "²") true = Except.error () :=
  ⟨by decide, by decide, rfl, rfl⟩

/-- C3 (amended): an out-of-range (negative or `≥` merged column count) key
column falls back to positional matching with the exact same result as no
key column, and a key spec that is neither an `isdigit()` string nor a
single letter silently parses to no key column — but a spec that passes
`isdigit()` while containing a non-decimal digit character (such as `"²"`)
makes `int(...)` raise `ValueError` instead of falling back. -/
theorem c3_invalid_key_fallback :
    (∀ (df1 df2 : DataFrame) (cs : Bool) (s : String),
      ¬(str_isdigit (str_upper (str_trim s)) = true) →
      ¬((str_upper (str_trim s)).length = 1 ∧
        str_isalpha (str_upper (str_trim s)) = true) →
      compare_with_key_spec df1 df2 (some s) cs =
        Except.ok (compare_dataframes df1 df2 none cs)) ∧
    (∀ s : String,
      str_isdigit (str_upper (str_trim s)) = true →
      ¬((str_upper (str_trim s)).data.all (fun c => (pyDecimalVal c).isSome) = true) →
      parse_key_column (some s) = Except.error ()) ∧
    (∀ (df1 df2 : DataFrame) (cs : Bool) (kc : Int),
      kc < 0 ∨ ((max df1.columns.length df2.columns.length : Nat) : Int) ≤ kc →
      compare_dataframes df1 df2 (some kc) cs =
        compare_dataframes df1 df2 none cs) := by
  refine ⟨?_, ?_, ?_⟩
  · intro df1 df2 cs s h1 h2
    have hparse : parse_key_column (some s) = Except.ok none := by
      by_cases hs : s = ""
      · simp [parse_key_column, hs]
      · simp only [parse_key_column, if_neg hs, if_neg h1, if_neg h2]
    unfold compare_with_key_spec
    rw [hparse]
  · intro s h1 h2
    by_cases hs : s = ""
    · rw [hs] at h1
      exact absurd h1 (by decide)
    · have hpi : pyInt (str_upper (str_trim s)) = Except.error () := by
        unfold pyInt
        rw [if_neg]
        intro hc
        exact h2 ((Bool.and_eq_true _ _).mp hc).2
      simp only [parse_key_column, if_neg hs, if_pos h1, hpi]
  · intro df1 df2 cs kc h
    rw [compare_dataframes_some_invalid df1 df2 kc cs (by simpa [diffMaxCols] using h),
      compare_dataframes_none]

theorem c3_witness :
    compare_with_key_spec exTableA exTableB (some "?!") true =
      Except.ok (compare_dataframes exTableA exTableB none true) ∧
    parse_key_column (some "²") = Except.error () ∧
    compare_dataframes exTableA exTableB (some (-1)) true =
      compare_dataframes exTableA exTableB none true :=
  ⟨c3_invalid_key_fallback.1 exTableA exTableB true "?!" (by decide) (by decide),
   c3_invalid_key_fallback.2.1 "²" (by decide) (by decide),
   c3_invalid_key_fallback.2.2 exTableA exTableB true (-1) (Or.inl (by decide))⟩

/-- C4: with `case_sensitive` the comparator is plain string equality, and
without it equality of the lower-cased copies; the emitted cell always
carries the original strings (`value` from the compare side, `old_value`
from the original side when modified); `"Foo"` vs `"foo"` is `modified`
when case-sensitive and `same` otherwise; empty vs empty is always equal. -/
theorem c4_cell_comparator :
    (∀ a b : String, compare_values a b true = (a == b)) ∧
    (∀ a b : String, compare_values a b false = (str_lower a == str_lower b)) ∧
    (∀ cs : Bool, compare_values "" "" cs = true) ∧
    (∀ (row1 row2 : List String) (mc : Nat) (cs : Bool) (i : Nat), i < mc →
      ((compare_cells row1 row2 mc cs).getD i ⟨"", none, CellStatus.same⟩).value =
        row2.getD i "" ∧
      ((compare_cells row1 row2 mc cs).getD i ⟨"", none, CellStatus.same⟩).old_value =
        (if compare_values (row1.getD i "") (row2.getD i "") cs then none
         else some (row1.getD i ""))) ∧
    (compare_dataframes ⟨["h"], [["Foo"]]⟩ ⟨["h"], [["foo"]]⟩ none true).rows =
      [{ status := CellStatus.modified
         cells := [{ value := "foo", old_value := some "Foo",
                     status := CellStatus.modified }] }] ∧
    (compare_dataframes ⟨["h"], [["Foo"]]⟩ ⟨["h"], [["foo"]]⟩ none false).rows =
      [{ status := CellStatus.same
         cells := [{ value := "foo", old_value := none,
                     status := CellStatus.same }] }] := by
  refine ⟨fun a b => rfl, fun a b => rfl, fun cs => by cases cs <;> decide,
    ?_, by decide, by decide⟩
  intro row1 row2 mc cs i hi
  unfold compare_cells
  rw [getD_map_range _ _ _ _ hi]
  dsimp only
  split_ifs with h
  · exact ⟨rfl, rfl⟩
  · exact ⟨rfl, rfl⟩

theorem compare_values_self (v : String) (cs : Bool) : compare_values v v cs = true := by
  cases cs <;> simp [compare_values]

theorem compare_cells_self (row : List String) (mc : Nat) (cs : Bool) :
    compare_cells row row mc cs = (List.range mc).map (fun i =>
      { value := row.getD i "", old_value := none, status := CellStatus.same }) := by
  unfold compare_cells
  refine List.map_congr_left (fun i _ => ?_)
  dsimp only
  rw [if_pos (compare_values_self _ cs)]

theorem comparedRow_self_eq (row : List String) (mc : Nat) (cs : Bool) :
    comparedRow row row mc cs =
      { status := CellStatus.same
        cells := (List.range mc).map (fun i =>
          { value := row.getD i "", old_value := none, status := CellStatus.same }) } := by
  unfold comparedRow
  rw [compare_cells_self]
  dsimp only
  rw [if_neg (by simp)]

theorem posRow_self_status (df : DataFrame) (mc : Nat) (cs : Bool) (i : Nat)
    (hi : i < df.rows.length) : (posRow df df mc cs i).status = CellStatus.same := by
  unfold posRow
  dsimp only
  rw [if_neg (by omega), if_neg (by omega), comparedRow_self_eq]

theorem keyRow_self_status (index : List (String × (Nat × List String)))
    (mc : Nat) (cs : Bool) (key : String) :
    (keyRow index index mc cs key).status = CellStatus.same := by
  unfold keyRow
  cases h : dictGet index key <;> simp [comparedRow_self_eq]

theorem compare_dataframes_summary_eq (df1 df2 : DataFrame) (kc : Option Int) (cs : Bool) :
    (compare_dataframes df1 df2 kc cs).summary =
      statusCounts (compare_dataframes df1 df2 kc cs).rows
        (compare_dataframes df1 df2 kc cs).rows.length := by
  rcases compare_dataframes_branches df1 df2 kc cs with h | ⟨k, _, h⟩ <;> rw [h]
  · rw [positional_diff_eq]
    simp [statusCounts]
  · rw [keyed_diff_eq]
    simp [statusCounts]

theorem compare_dataframes_rows_all_statuses (df1 df2 : DataFrame) (kc : Option Int)
    (cs : Bool) (P : RowDiff → Prop)
    (hpos : ∀ i, i < max df1.rows.length df2.rows.length →
      P (posRow df1 df2 (diffMaxCols df1 df2) cs i))
    (hkey : ∀ k : Nat, k < diffMaxCols df1 df2 → ∀ key ∈ allKeys df1 df2 k (diffMaxCols df1 df2),
      P (keyRow (buildIndex df1 k (diffMaxCols df1 df2))
        (buildIndex df2 k (diffMaxCols df1 df2)) (diffMaxCols df1 df2) cs key)) :
    ∀ r ∈ (compare_dataframes df1 df2 kc cs).rows, P r := by
  rcases compare_dataframes_branches df1 df2 kc cs with h | ⟨k, hk, h⟩ <;> rw [h]
  · rw [positional_diff_eq]
    intro r hr
    obtain ⟨i, hi, rfl⟩ := List.mem_map.mp hr
    exact hpos i (List.mem_range.mp hi)
  · rw [keyed_diff_eq]
    intro r hr
    obtain ⟨key, hkey2, rfl⟩ := List.mem_map.mp hr
    exact hkey k hk key hkey2

/-- C6: diffing a table against itself, with or without a key column, yields
only `same` rows; the `added`, `deleted` and `modified` counters are zero and
`unchanged` equals `total_rows`. -/
theorem c6_self_diff (df : DataFrame) (kc : Option Int) (cs : Bool) :
    (∀ r ∈ (compare_dataframes df df kc cs).rows, r.status = CellStatus.same) ∧
    (compare_dataframes df df kc cs).summary.added = 0 ∧
    (compare_dataframes df df kc cs).summary.deleted = 0 ∧
    (compare_dataframes df df kc cs).summary.modified = 0 ∧
    (compare_dataframes df df kc cs).summary.unchanged =
      (compare_dataframes df df kc cs).summary.total_rows := by
  have hall : ∀ r ∈ (compare_dataframes df df kc cs).rows, r.status = CellStatus.same := by
    refine compare_dataframes_rows_all_statuses df df kc cs _ ?_ ?_
    · intro i hi
      exact posRow_self_status df _ cs i (by omega)
    · intro k _ key _
      exact keyRow_self_status _ _ cs key
  refine ⟨hall, ?_, ?_, ?_, ?_⟩ <;> rw [compare_dataframes_summary_eq]
  · exact List.countP_eq_zero.mpr (fun r hr => by simp [hall r hr])
  · exact List.countP_eq_zero.mpr (fun r hr => by simp [hall r hr])
  · exact List.countP_eq_zero.mpr (fun r hr => by simp [hall r hr])
  · show countStatus CellStatus.same _ = _
    rw [countStatus, List.countP_eq_length.mpr (fun r hr => by simp [hall r hr])]
    rfl

theorem c6_witness :
    (compare_dataframes exTableA exTableA (some 0) true).summary.added = 0 ∧
    ({ status := CellStatus.same
       cells := [⟨"1", none, CellStatus.same⟩, ⟨"Alice", none, CellStatus.same⟩] } :
      RowDiff).status = CellStatus.same :=
  ⟨(c6_self_diff exTableA (some 0) true).2.1,
   (c6_self_diff exTableA (some 0) true).1 _ (by decide)⟩

theorem addedRow_cells_prop (row : List String) :
    ∀ c ∈ (addedRow row).cells, c.old_value = none ∧ c.status = CellStatus.added := by
  intro c hc
  obtain ⟨v, _, rfl⟩ := List.mem_map.mp hc
  exact ⟨rfl, rfl⟩

theorem deletedRow_cells_prop (row : List String) :
    ∀ c ∈ (deletedRow row).cells, c.old_value = none ∧ c.status = CellStatus.deleted := by
  intro c hc
  obtain ⟨v, _, rfl⟩ := List.mem_map.mp hc
  exact ⟨rfl, rfl⟩

theorem compare_cells_mem_prop (row1 row2 : List String) (mc : Nat) (cs : Bool) :
    ∀ c ∈ compare_cells row1 row2 mc cs,
      (c.old_value = none ∧ c.status = CellStatus.same) ∨
      (c.old_value ≠ none ∧ c.status = CellStatus.modified) := by
  intro c hc
  obtain ⟨i, _, rfl⟩ := List.mem_map.mp hc
  dsimp only
  split_ifs with h
  · exact Or.inl ⟨rfl, rfl⟩
  · exact Or.inr ⟨by simp, rfl⟩

theorem comparedRow_cells (row1 row2 : List String) (mc : Nat) (cs : Bool) :
    (comparedRow row1 row2 mc cs).cells = compare_cells row1 row2 mc cs := by
  unfold comparedRow
  dsimp only
  split_ifs <;> rfl

theorem posRow_cells_prop (df1 df2 : DataFrame) (mc : Nat) (cs : Bool) (i : Nat) :
    ∀ c ∈ (posRow df1 df2 mc cs i).cells,
      (c.old_value = none ↔ c.status ≠ CellStatus.modified) := by
  unfold posRow
  dsimp only
  split_ifs with h1 h2
  · intro c hc
    obtain ⟨h, h'⟩ := addedRow_cells_prop _ c hc
    simp [h, h']
  · intro c hc
    obtain ⟨h, h'⟩ := deletedRow_cells_prop _ c hc
    simp [h, h']
  · intro c hc
    rw [comparedRow_cells] at hc
    rcases compare_cells_mem_prop _ _ _ _ c hc with ⟨h, h'⟩ | ⟨h, h'⟩ <;> simp [h, h']

theorem keyRow_cells_prop (index1 index2 : List (String × (Nat × List String)))
    (mc : Nat) (cs : Bool) (key : String) :
    ∀ c ∈ (keyRow index1 index2 mc cs key).cells,
      (c.old_value = none ↔ c.status ≠ CellStatus.modified) := by
  unfold keyRow
  cases h1 : dictGet index1 key <;> cases h2 : dictGet index2 key
  · simp
  · intro c hc
    obtain ⟨h, h'⟩ := addedRow_cells_prop _ c hc
    simp [h, h']
  · intro c hc
    obtain ⟨h, h'⟩ := deletedRow_cells_prop _ c hc
    simp [h, h']
  · intro c hc
    rw [comparedRow_cells] at hc
    rcases compare_cells_mem_prop _ _ _ _ c hc with ⟨h, h'⟩ | ⟨h, h'⟩ <;> simp [h, h']

theorem compare_cells_getD (row1 row2 : List String) (mc : Nat) (cs : Bool)
    (i : Nat) (hi : i < mc) :
    (compare_cells row1 row2 mc cs).getD i ⟨"", none, CellStatus.same⟩ =
      (if compare_values (row1.getD i "") (row2.getD i "") cs then
        ⟨row2.getD i "", none, CellStatus.same⟩
      else ⟨row2.getD i "", some (row1.getD i ""), CellStatus.modified⟩) := by
  unfold compare_cells
  rw [getD_map_range _ _ _ _ hi]

/-- C10: in every emitted cell, `old_value` is `none` exactly when the
cell's status is not `modified`; and a both-sides cell is exactly the
comparator's record — its `value` is the compare-side string and, when
`modified`, its `old_value` is the original-side string — stated for the
positional rows (both sides in range) and for the key-matched rows (key in
both indexes, the diff row located at the key's position in the iterated
key list). -/
theorem c10_old_value_iff_modified (df1 df2 : DataFrame) (kc : Option Int) (cs : Bool) :
    (∀ r ∈ (compare_dataframes df1 df2 kc cs).rows, ∀ c ∈ r.cells,
      (c.old_value = none ↔ c.status ≠ CellStatus.modified)) ∧
    (∀ p i : Nat, p < df1.rows.length → p < df2.rows.length →
      i < diffMaxCols df1 df2 →
      ((compare_dataframes df1 df2 none cs).rows.getD p
          ⟨CellStatus.same, []⟩).cells.getD i ⟨"", none, CellStatus.same⟩ =
        (if compare_values ((get_row_values df1 p (diffMaxCols df1 df2)).getD i "")
            ((get_row_values df2 p (diffMaxCols df1 df2)).getD i "") cs then
          ⟨(get_row_values df2 p (diffMaxCols df1 df2)).getD i "", none,
            CellStatus.same⟩
        else ⟨(get_row_values df2 p (diffMaxCols df1 df2)).getD i "",
          some ((get_row_values df1 p (diffMaxCols df1 df2)).getD i ""),
          CellStatus.modified⟩)) ∧
    (∀ (k : Nat) (key : String) (e1 e2 : Nat × List String) (i : Nat),
      k < diffMaxCols df1 df2 →
      dictGet (buildIndex df1 k (diffMaxCols df1 df2)) key = some e1 →
      dictGet (buildIndex df2 k (diffMaxCols df1 df2)) key = some e2 →
      i < diffMaxCols df1 df2 →
      ((compare_dataframes df1 df2 (some (k : Int)) cs).rows.getD
          ((allKeys df1 df2 k (diffMaxCols df1 df2)).indexOf key)
          ⟨CellStatus.same, []⟩).cells.getD i ⟨"", none, CellStatus.same⟩ =
        (if compare_values (e1.2.getD i "") (e2.2.getD i "") cs then
          ⟨e2.2.getD i "", none, CellStatus.same⟩
        else ⟨e2.2.getD i "", some (e1.2.getD i ""), CellStatus.modified⟩)) := by
  refine ⟨?_, ?_, ?_⟩
  · refine compare_dataframes_rows_all_statuses df1 df2 kc cs _ ?_ ?_
    · intro i _
      exact posRow_cells_prop df1 df2 _ cs i
    · intro k _ key _
      exact keyRow_cells_prop _ _ _ cs key
  · intro p i hp1 hp2 hi
    rw [compare_dataframes_none, positional_diff_rows,
      getD_map_range _ _ _ _ (show p < max df1.rows.length df2.rows.length by omega)]
    unfold posRow
    dsimp only
    rw [if_neg (by omega), if_neg (by omega), comparedRow_cells,
      compare_cells_getD _ _ _ cs i hi]
  · intro k key e1 e2 i hk h1 h2 hi
    rw [compare_dataframes_some_valid df1 df2 k cs hk, keyed_diff_rows]
    have hmem : key ∈ allKeys df1 df2 k (diffMaxCols df1 df2) := by
      simp only [allKeys, mem_dedupKeys, List.mem_append]
      exact Or.inl ((mem_dictKeys_iff _ _).mpr (by rw [h1]; rfl))
    have hlen : (allKeys df1 df2 k (diffMaxCols df1 df2)).indexOf key <
        (allKeys df1 df2 k (diffMaxCols df1 df2)).length :=
      List.indexOf_lt_length.mpr hmem
    have hmap : ((allKeys df1 df2 k (diffMaxCols df1 df2)).map
        (keyRow (buildIndex df1 k (diffMaxCols df1 df2))
          (buildIndex df2 k (diffMaxCols df1 df2)) (diffMaxCols df1 df2) cs)).getD
        ((allKeys df1 df2 k (diffMaxCols df1 df2)).indexOf key)
        ⟨CellStatus.same, []⟩ =
        keyRow (buildIndex df1 k (diffMaxCols df1 df2))
          (buildIndex df2 k (diffMaxCols df1 df2)) (diffMaxCols df1 df2) cs key := by
      rw [List.getD_eq_getElem?_getD, List.getElem?_map,
        List.getElem?_eq_getElem hlen]
      simp [List.getElem_indexOf hlen]
    rw [hmap]
    simp only [keyRow, h1, h2]
    rw [comparedRow_cells, compare_cells_getD _ _ _ cs i hi]

theorem c10_witness :
    ((⟨"foo", some "Foo", CellStatus.modified⟩ : Cell).old_value = none ↔
      (⟨"foo", some "Foo", CellStatus.modified⟩ : Cell).status ≠ CellStatus.modified) ∧
    ((compare_dataframes ⟨["h"], [["Foo"]]⟩ ⟨["h"], [["foo"]]⟩ none true).rows.getD 0
        ⟨CellStatus.same, []⟩).cells.getD 0 ⟨"", none, CellStatus.same⟩ =
      (if compare_values
          ((get_row_values ⟨["h"], [["Foo"]]⟩ 0
            (diffMaxCols ⟨["h"], [["Foo"]]⟩ ⟨["h"], [["foo"]]⟩)).getD 0 "")
          ((get_row_values ⟨["h"], [["foo"]]⟩ 0
            (diffMaxCols ⟨["h"], [["Foo"]]⟩ ⟨["h"], [["foo"]]⟩)).getD 0 "") true then
        ⟨(get_row_values ⟨["h"], [["foo"]]⟩ 0
          (diffMaxCols ⟨["h"], [["Foo"]]⟩ ⟨["h"], [["foo"]]⟩)).getD 0 "", none,
          CellStatus.same⟩
      else ⟨(get_row_values ⟨["h"], [["foo"]]⟩ 0
          (diffMaxCols ⟨["h"], [["Foo"]]⟩ ⟨["h"], [["foo"]]⟩)).getD 0 "",
        some ((get_row_values ⟨["h"], [["Foo"]]⟩ 0
          (diffMaxCols ⟨["h"], [["Foo"]]⟩ ⟨["h"], [["foo"]]⟩)).getD 0 ""),
        CellStatus.modified⟩) :=
  ⟨(c10_old_value_iff_modified ⟨["h"], [["Foo"]]⟩ ⟨["h"], [["foo"]]⟩ none true).1
      { status := CellStatus.modified
        cells := [⟨"foo", some "Foo", CellStatus.modified⟩] }
      (by decide) ⟨"foo", some "Foo", CellStatus.modified⟩ (by decide),
   (c10_old_value_iff_modified ⟨["h"], [["Foo"]]⟩ ⟨["h"], [["foo"]]⟩ none true).2.1
      0 0 (by decide) (by decide) (by decide)⟩

theorem indexStep_eq (df : DataFrame) (kc mc : Nat)
    (acc : List (String × (Nat × List String))) (i : Nat) :
    indexStep df kc mc acc i =
      if keyAt df kc mc i ≠ "" then
        dictInsert acc (keyAt df kc mc i) (i, get_row_values df i mc)
      else acc := rfl

theorem buildIndex_fold_keys (df : DataFrame) (kc mc : Nat) (l : List Nat)
    (acc : List (String × (Nat × List String))) :
    dictKeys (l.foldl (indexStep df kc mc) acc) =
      ((l.map (keyAt df kc mc)).filter (fun k => k ≠ "")).foldl
        (fun acc2 k => if k ∈ acc2 then acc2 else acc2 ++ [k]) (dictKeys acc) := by
  induction l generalizing acc with
  | nil => simp
  | cons i l ih =>
    simp only [List.foldl_cons, List.map_cons, List.filter_cons, indexStep_eq]
    by_cases hk : keyAt df kc mc i = ""
    · rw [show (decide (keyAt df kc mc i ≠ "")) = false by simp [hk],
        if_neg (by simp [hk])]
      exact ih acc
    · rw [show (decide (keyAt df kc mc i ≠ "")) = true by simp [hk], if_pos hk]
      rw [ih _, dictKeys_dictInsert, if_pos rfl, List.foldl_cons]

theorem dictKeys_buildIndex (df : DataFrame) (kc mc : Nat) :
    dictKeys (buildIndex df kc mc) = dedupKeys (row_keys df kc mc) := by
  unfold buildIndex row_keys dedupKeys
  rw [buildIndex_fold_keys]
  rfl

theorem buildIndex_fold_get (df : DataFrame) (kc mc : Nat) (key : String)
    (hkey : key ≠ "") (l : List Nat)
    (acc : List (String × (Nat × List String))) :
    dictGet (l.foldl (indexStep df kc mc) acc) key =
      match l.reverse.find? (fun i => keyAt df kc mc i == key) with
      | some i => some (i, get_row_values df i mc)
      | none => dictGet acc key := by
  induction l generalizing acc with
  | nil => simp
  | cons i l ih =>
    simp only [List.foldl_cons, List.reverse_cons, List.find?_append]
    rw [ih]
    cases hfind : l.reverse.find? (fun i => keyAt df kc mc i == key) with
    | some j => simp [Option.or]
    | none =>
      rw [indexStep_eq]
      by_cases hki : keyAt df kc mc i = key
      · have hne : keyAt df kc mc i ≠ "" := by rw [hki]; exact hkey
        rw [if_pos hne]
        have hp : (keyAt df kc mc i == key) = true := by simp [hki]
        simp [List.find?, hp, Option.or, hki, dictGet_dictInsert_self]
      · have hp : (keyAt df kc mc i == key) = false := by simp [hki]
        by_cases hk0 : keyAt df kc mc i = ""
        · rw [if_neg (by simp [hk0])]
          simp [List.find?, hp, Option.or]
        · rw [if_pos hk0]
          simp [List.find?, hp, Option.or,
            dictGet_dictInsert_ne _ _ _ _ (fun h => hki h.symm)]

theorem dictGet_buildIndex (df : DataFrame) (kc mc : Nat) (key : String)
    (hkey : key ≠ "") :
    dictGet (buildIndex df kc mc) key =
      ((List.range df.rows.length).reverse.find?
        (fun i => keyAt df kc mc i == key)).map
        (fun i => (i, get_row_values df i mc)) := by
  unfold buildIndex
  rw [buildIndex_fold_get df kc mc key hkey]
  cases hfind : (List.range df.rows.length).reverse.find?
      (fun i => keyAt df kc mc i == key) <;> simp [dictGet]

theorem fold_step_nodup (y : List String) : ∀ x : List String, y.Nodup →
    y.foldl (fun acc k => if k ∈ acc then acc else acc ++ [k]) x =
      x ++ y.filter (fun k => k ∉ x) := by
  induction y with
  | nil => intro x _; simp
  | cons a y ih =>
    intro x hy
    rw [List.foldl_cons, List.filter_cons]
    by_cases ha : a ∈ x
    · rw [if_pos ha, show (decide (a ∉ x)) = false by simp [ha],
        ih x (List.nodup_cons.mp hy).2]
      rfl
    · rw [if_neg ha, show (decide (a ∉ x)) = true by simp [ha],
        ih (x ++ [a]) (List.nodup_cons.mp hy).2]
      have hfeq : y.filter (fun k => k ∉ x ++ [a]) = y.filter (fun k => k ∉ x) := by
        refine List.filter_congr (fun k hk => ?_)
        have hka : k ≠ a := fun h => (List.nodup_cons.mp hy).1 (h ▸ hk)
        simp [List.mem_append, hka]
      rw [hfeq, List.append_assoc]
      rfl

theorem dedupKeys_nodup_self (x : List String) (hx : x.Nodup) : dedupKeys x = x := by
  unfold dedupKeys
  rw [fold_step_nodup x [] hx]
  simp

theorem dedupKeys_append_nodup (x y : List String) (hx : x.Nodup) (hy : y.Nodup) :
    dedupKeys (x ++ y) = x ++ y.filter (fun k => k ∉ x) := by
  unfold dedupKeys
  rw [List.foldl_append]
  have h1 : x.foldl (fun acc k => if k ∈ acc then acc else acc ++ [k]) [] = x :=
    dedupKeys_nodup_self x hx
  rw [h1, fold_step_nodup y x hy]

theorem mem_dictKeys_buildIndex (df : DataFrame) (kc mc : Nat) (key : String) :
    key ∈ dictKeys (buildIndex df kc mc) ↔ key ∈ row_keys df kc mc := by
  rw [dictKeys_buildIndex, mem_dedupKeys]

/-- C2: under key matching, each table's index maps the non-empty key values
to rows, with first-occurrence key order and last-occurrence values (rows
with an empty key are never indexed); the iterated keys are A's keys in
first-appearance order followed by B's new keys in first-appearance order,
unsorted; the diff emits exactly one row per iterated key, so empty-keyed
rows never produce a diff row. -/
theorem c2_key_matching_pipeline (df1 df2 : DataFrame) (k : Nat) (cs : Bool)
    (hk : k < diffMaxCols df1 df2) :
    (∀ df : DataFrame, dictKeys (buildIndex df k (diffMaxCols df1 df2)) =
      dedupKeys (row_keys df k (diffMaxCols df1 df2))) ∧
    (∀ (df : DataFrame) (key : String), key ≠ "" →
      dictGet (buildIndex df k (diffMaxCols df1 df2)) key =
        ((List.range df.rows.length).reverse.find?
          (fun i => keyAt df k (diffMaxCols df1 df2) i == key)).map
          (fun i => (i, get_row_values df i (diffMaxCols df1 df2)))) ∧
    (allKeys df1 df2 k (diffMaxCols df1 df2) =
      dedupKeys (row_keys df1 k (diffMaxCols df1 df2)) ++
        (dedupKeys (row_keys df2 k (diffMaxCols df1 df2))).filter
          (fun x => x ∉ dedupKeys (row_keys df1 k (diffMaxCols df1 df2)))) ∧
    ((compare_dataframes df1 df2 (some (k : Int)) cs).rows =
      (allKeys df1 df2 k (diffMaxCols df1 df2)).map
        (keyRow (buildIndex df1 k (diffMaxCols df1 df2))
          (buildIndex df2 k (diffMaxCols df1 df2)) (diffMaxCols df1 df2) cs)) ∧
    (∀ key ∈ allKeys df1 df2 k (diffMaxCols df1 df2), key ≠ "") := by
  refine ⟨fun df => dictKeys_buildIndex df k _,
    fun df key hkey => dictGet_buildIndex df k _ key hkey, ?_, ?_, ?_⟩
  · rw [allKeys, dictKeys_buildIndex, dictKeys_buildIndex]
    exact dedupKeys_append_nodup _ _ (dedupKeys_nodup _) (dedupKeys_nodup _)
  · rw [compare_dataframes_some_valid df1 df2 k cs hk, keyed_diff_eq]
  · intro key hmem
    rw [allKeys, mem_dedupKeys, List.mem_append] at hmem
    have hrk : key ∈ row_keys df1 k (diffMaxCols df1 df2) ∨
        key ∈ row_keys df2 k (diffMaxCols df1 df2) := by
      rcases hmem with h | h
      · exact Or.inl ((mem_dictKeys_buildIndex _ _ _ _).mp h)
      · exact Or.inr ((mem_dictKeys_buildIndex _ _ _ _).mp h)
    rcases hrk with h | h <;>
      simpa using List.of_mem_filter h

theorem c2_witness :
    dictGet (buildIndex exTableA 0 (diffMaxCols exTableA exTableB)) "1" =
      ((List.range exTableA.rows.length).reverse.find?
        (fun i => keyAt exTableA 0 (diffMaxCols exTableA exTableB) i == "1")).map
        (fun i => (i, get_row_values exTableA i (diffMaxCols exTableA exTableB))) ∧
    (compare_dataframes exTableA exTableB (some ((0 : Nat) : Int)) true).rows =
      (allKeys exTableA exTableB 0 (diffMaxCols exTableA exTableB)).map
        (keyRow (buildIndex exTableA 0 (diffMaxCols exTableA exTableB))
          (buildIndex exTableB 0 (diffMaxCols exTableA exTableB))
          (diffMaxCols exTableA exTableB) true) :=
  ⟨(c2_key_matching_pipeline exTableA exTableB 0 true (by decide)).2.1
      exTableA "1" (by decide),
   (c2_key_matching_pipeline exTableA exTableB 0 true (by decide)).2.2.2.1⟩

/-- C7: under key matching with a valid key column and disjoint (non-empty)
key sets, every diff row is wholly `added` or wholly `deleted`; the
`modified` and `unchanged` counters are zero. -/
theorem c7_disjoint_keys (df1 df2 : DataFrame) (k : Nat) (cs : Bool)
    (hk : k < diffMaxCols df1 df2)
    (hdisj : ∀ x ∈ row_keys df1 k (diffMaxCols df1 df2),
      x ∉ row_keys df2 k (diffMaxCols df1 df2)) :
    (∀ r ∈ (compare_dataframes df1 df2 (some (k : Int)) cs).rows,
      (r.status = CellStatus.added ∧ ∀ c ∈ r.cells, c.status = CellStatus.added) ∨
      (r.status = CellStatus.deleted ∧
        ∀ c ∈ r.cells, c.status = CellStatus.deleted)) ∧
    (compare_dataframes df1 df2 (some (k : Int)) cs).summary.modified = 0 ∧
    (compare_dataframes df1 df2 (some (k : Int)) cs).summary.unchanged = 0 := by
  have hrows : ∀ r ∈ (compare_dataframes df1 df2 (some (k : Int)) cs).rows,
      (r.status = CellStatus.added ∧ ∀ c ∈ r.cells, c.status = CellStatus.added) ∨
      (r.status = CellStatus.deleted ∧
        ∀ c ∈ r.cells, c.status = CellStatus.deleted) := by
    rw [compare_dataframes_some_valid df1 df2 k cs hk, keyed_diff_eq]
    intro r hr
    obtain ⟨key, hkmem, rfl⟩ := List.mem_map.mp hr
    have hpresent := allKeys_present df1 df2 k (diffMaxCols df1 df2) key hkmem
    cases h1 : dictGet (buildIndex df1 k (diffMaxCols df1 df2)) key with
    | some e1 =>
      cases h2 : dictGet (buildIndex df2 k (diffMaxCols df1 df2)) key with
      | some e2 =>
        exfalso
        have hm1 : key ∈ row_keys df1 k (diffMaxCols df1 df2) :=
          (mem_dictKeys_buildIndex _ _ _ _).mp
            ((mem_dictKeys_iff _ _).mpr (by rw [h1]; rfl))
        have hm2 : key ∈ row_keys df2 k (diffMaxCols df1 df2) :=
          (mem_dictKeys_buildIndex _ _ _ _).mp
            ((mem_dictKeys_iff _ _).mpr (by rw [h2]; rfl))
        exact hdisj key hm1 hm2
      | none =>
        right
        simp only [keyRow, h1, h2]
        exact ⟨rfl, fun c hc => (deletedRow_cells_prop _ c hc).2⟩
    | none =>
      cases h2 : dictGet (buildIndex df2 k (diffMaxCols df1 df2)) key with
      | some e2 =>
        left
        simp only [keyRow, h1, h2]
        exact ⟨rfl, fun c hc => (addedRow_cells_prop _ c hc).2⟩
      | none =>
        exfalso
        rw [h1, h2] at hpresent
        simp at hpresent
  refine ⟨hrows, ?_, ?_⟩ <;> rw [compare_dataframes_summary_eq] <;>
    refine List.countP_eq_zero.mpr (fun r hr => ?_) <;>
    rcases hrows r hr with ⟨hs, _⟩ | ⟨hs, _⟩ <;> simp [hs]

theorem c7_witness :
    (compare_dataframes ⟨["id"], [["1"]]⟩ ⟨["id"], [["2"]]⟩
      (some ((0 : Nat) : Int)) true).summary.modified = 0 ∧
    (compare_dataframes ⟨["id"], [["1"]]⟩ ⟨["id"], [["2"]]⟩
      (some ((0 : Nat) : Int)) true).summary.unchanged = 0 :=
  ⟨(c7_disjoint_keys ⟨["id"], [["1"]]⟩ ⟨["id"], [["2"]]⟩ 0 true
      (by decide) (by decide)).2.1,
   (c7_disjoint_keys ⟨["id"], [["1"]]⟩ ⟨["id"], [["2"]]⟩ 0 true
      (by decide) (by decide)).2.2⟩

/-- C9: key matching compares key values by exact string equality even when
`case_sensitive` is false: two single-row tables whose keys differ only in
letter case produce one wholly `deleted` row and one wholly `added` row,
never a merged `same`/`modified` row. -/
theorem c9_exact_key_match (a b : String) (cs : Bool)
    (hab : a ≠ b) (hfold : str_lower a = str_lower b)
    (ha : str_trim a = a) (hb : str_trim b = b)
    (ha0 : a ≠ "") (hb0 : b ≠ "") :
    compare_dataframes ⟨["k"], [[a]]⟩ ⟨["k"], [[b]]⟩ (some 0) cs =
      { headers := ["k"]
        rows := [{ status := CellStatus.deleted
                   cells := [⟨a, none, CellStatus.deleted⟩] },
                 { status := CellStatus.added
                   cells := [⟨b, none, CellStatus.added⟩] }]
        summary := ⟨2, 1, 1, 0, 0⟩ } := by
  have _ := hfold
  have hba : b ≠ a := fun h => hab h.symm
  have h0 : (some (0 : Int)) = some (((0 : Nat) : Int)) := rfl
  have hmc : diffMaxCols ⟨["k"], [[a]]⟩ ⟨["k"], [[b]]⟩ = 1 := rfl
  have hr1 : List.range 1 = [0] := rfl
  rw [h0, compare_dataframes_some_valid _ _ 0 cs (by rw [hmc]; omega), keyed_diff_eq, hmc]
  have hrow1 : get_row_values ⟨["k"], [[a]]⟩ 0 1 = [a] := by
    simp [get_row_values, safe_str, hr1, ha]
  have hrow2 : get_row_values ⟨["k"], [[b]]⟩ 0 1 = [b] := by
    simp [get_row_values, safe_str, hr1, hb]
  have hidx1 : buildIndex ⟨["k"], [[a]]⟩ 0 1 = [(a, (0, [a]))] := by
    simp [buildIndex, indexStep, hr1, hrow1, dictInsert, dictGet, ha0]
  have hidx2 : buildIndex ⟨["k"], [[b]]⟩ 0 1 = [(b, (0, [b]))] := by
    simp [buildIndex, indexStep, hr1, hrow2, dictInsert, dictGet, hb0]
  simp only [allKeys, hidx1, hidx2]
  have hkeys : dedupKeys (dictKeys [(a, (0, [a]))] ++ dictKeys [(b, (0, [b]))]) = [a, b] := by
    simp [dedupKeys, dictKeys, hba]
  rw [hkeys]
  have hrowa : keyRow [(a, (0, [a]))] [(b, (0, [b]))] 1 cs a =
      { status := CellStatus.deleted, cells := [⟨a, none, CellStatus.deleted⟩] } := by
    simp [keyRow, dictGet, hab, deletedRow]
  have hrowb : keyRow [(a, (0, [a]))] [(b, (0, [b]))] 1 cs b =
      { status := CellStatus.added, cells := [⟨b, none, CellStatus.added⟩] } := by
    simp [keyRow, dictGet, hba, addedRow]
  simp only [List.map_cons, List.map_nil, hrowa, hrowb]
  constructor

theorem c9_witness :
    compare_dataframes ⟨["k"], [["Foo"]]⟩ ⟨["k"], [["foo"]]⟩ (some 0) false =
      { headers := ["k"]
        rows := [{ status := CellStatus.deleted
                   cells := [⟨"Foo", none, CellStatus.deleted⟩] },
                 { status := CellStatus.added
                   cells := [⟨"foo", none, CellStatus.added⟩] }]
        summary := ⟨2, 1, 1, 0, 0⟩ } :=
  c9_exact_key_match "Foo" "foo" false (by decide) (by decide) (by decide)
    (by decide) (by decide) (by decide)

theorem string_beq_symm (x y : String) : (x == y) = (y == x) := by
  by_cases h : x = y
  · rw [h]
  · have h' : y ≠ x := fun hh => h hh.symm
    simp [h, h']

theorem compare_values_symm (a b : String) (cs : Bool) :
    compare_values a b cs = compare_values b a cs := by
  cases cs
  · have h1 : compare_values a b false = (str_lower a == str_lower b) := rfl
    have h2 : compare_values b a false = (str_lower b == str_lower a) := rfl
    rw [h1, h2, string_beq_symm]
  · have h1 : compare_values a b true = (a == b) := rfl
    have h2 : compare_values b a true = (b == a) := rfl
    rw [h1, h2, string_beq_symm]

theorem mirrorCell_status_modified (c : Cell) :
    ((mirrorCell c).status = CellStatus.modified) ↔
      (c.status = CellStatus.modified) := by
  rcases c with ⟨v, ov, st⟩
  cases st <;> simp [mirrorCell]

theorem mirrorRow_addedRow (row : List String) :
    mirrorRow (addedRow row) = deletedRow row := by
  unfold mirrorRow addedRow deletedRow
  rw [List.map_map]
  rfl

theorem mirrorRow_deletedRow (row : List String) :
    mirrorRow (deletedRow row) = addedRow row := by
  unfold mirrorRow addedRow deletedRow
  rw [List.map_map]
  rfl

theorem compare_cells_swap (row1 row2 : List String) (mc : Nat) :
    compare_cells row2 row1 mc true = (compare_cells row1 row2 mc true).map mirrorCell := by
  unfold compare_cells
  rw [List.map_map]
  refine List.map_congr_left (fun i _ => ?_)
  simp only [Function.comp]
  by_cases h : row1.getD i "" = row2.getD i ""
  · have h2 : compare_values (row2.getD i "") (row1.getD i "") true = true := by
      unfold compare_values
      rw [if_pos rfl]
      exact beq_iff_eq.mpr h.symm
    have h1 : compare_values (row1.getD i "") (row2.getD i "") true = true := by
      unfold compare_values
      rw [if_pos rfl]
      exact beq_iff_eq.mpr h
    rw [if_pos h2, if_pos h1, h]
    rfl
  · have h2 : compare_values (row2.getD i "") (row1.getD i "") true = false := by
      unfold compare_values
      rw [if_pos rfl]
      exact beq_eq_false_iff_ne.mpr (fun hh => h hh.symm)
    have h1 : compare_values (row1.getD i "") (row2.getD i "") true = false := by
      unfold compare_values
      rw [if_pos rfl]
      exact beq_eq_false_iff_ne.mpr h
    rw [if_neg (by rw [h2]; exact Bool.false_ne_true),
      if_neg (by rw [h1]; exact Bool.false_ne_true)]
    rfl

theorem any_modified_map_mirror (cells : List Cell) :
    (cells.map mirrorCell).any (fun c => c.status == CellStatus.modified) =
      cells.any (fun c => c.status == CellStatus.modified) := by
  rw [List.any_map]
  have hfun : ((fun c => c.status == CellStatus.modified) ∘ mirrorCell) =
      (fun c => c.status == CellStatus.modified) := by
    funext c
    rcases c with ⟨v, ov, st⟩
    cases st <;> rfl
  rw [hfun]

theorem comparedRow_swap (row1 row2 : List String) (mc : Nat) :
    comparedRow row2 row1 mc true = mirrorRow (comparedRow row1 row2 mc true) := by
  unfold comparedRow
  dsimp only
  rw [compare_cells_swap, any_modified_map_mirror]
  cases h : (compare_cells row1 row2 mc true).any
      (fun c => c.status == CellStatus.modified) <;>
    simp [mirrorRow]

theorem diffMaxCols_comm (df1 df2 : DataFrame) :
    diffMaxCols df2 df1 = diffMaxCols df1 df2 :=
  Nat.max_comm _ _

theorem posRow_swap (df1 df2 : DataFrame) (mc : Nat) (i : Nat)
    (hi : i < max df1.rows.length df2.rows.length) :
    posRow df2 df1 mc true i = mirrorRow (posRow df1 df2 mc true i) := by
  unfold posRow
  dsimp only
  by_cases h1 : df1.rows.length ≤ i
  · have h2 : ¬df2.rows.length ≤ i := by omega
    simp only [if_neg h2, if_pos h1]
    rw [mirrorRow_addedRow]
  · by_cases h2 : df2.rows.length ≤ i
    · simp only [if_pos h2, if_neg h1]
      rw [mirrorRow_deletedRow]
    · simp only [if_neg h1, if_neg h2]
      exact comparedRow_swap _ _ mc

theorem keyRow_swap (index1 index2 : List (String × (Nat × List String)))
    (mc : Nat) (key : String) :
    keyRow index2 index1 mc true key = mirrorRow (keyRow index1 index2 mc true key) := by
  unfold keyRow
  cases g1 : dictGet index1 key <;> cases g2 : dictGet index2 key <;>
    simp only [g1, g2]
  · rfl
  · rw [mirrorRow_addedRow]
  · rw [mirrorRow_deletedRow]
  · exact comparedRow_swap _ _ mc

theorem allKeys_swap_perm (df1 df2 : DataFrame) (k mc : Nat) :
    List.Perm (allKeys df2 df1 k mc) (allKeys df1 df2 k mc) := by
  refine (List.perm_ext_iff_of_nodup (dedupKeys_nodup _) (dedupKeys_nodup _)).mpr ?_
  intro a
  simp only [allKeys, mem_dedupKeys, List.mem_append]
  tauto

theorem positional_rows_swap (df1 df2 : DataFrame) :
    (positional_diff df2 df1 (diffMaxCols df2 df1) true (diffHeaders df2 df1)).rows =
      (positional_diff df1 df2 (diffMaxCols df1 df2) true
        (diffHeaders df1 df2)).rows.map mirrorRow := by
  rw [positional_diff_rows, positional_diff_rows, List.map_map, diffMaxCols_comm,
    Nat.max_comm df2.rows.length df1.rows.length]
  refine List.map_congr_left (fun i hi => ?_)
  simp only [Function.comp_apply]
  exact posRow_swap df1 df2 _ i (List.mem_range.mp hi)

theorem keyed_rows_swap (df1 df2 : DataFrame) (k : Nat) :
    (keyed_diff df2 df1 k (diffMaxCols df2 df1) true (diffHeaders df2 df1)).rows.Perm
      ((keyed_diff df1 df2 k (diffMaxCols df1 df2) true
        (diffHeaders df1 df2)).rows.map mirrorRow) := by
  rw [keyed_diff_rows, keyed_diff_rows, List.map_map, diffMaxCols_comm]
  have hcongr : (allKeys df2 df1 k (diffMaxCols df1 df2)).map
      (keyRow (buildIndex df2 k (diffMaxCols df1 df2))
        (buildIndex df1 k (diffMaxCols df1 df2)) (diffMaxCols df1 df2) true) =
      (allKeys df2 df1 k (diffMaxCols df1 df2)).map
        (mirrorRow ∘ keyRow (buildIndex df1 k (diffMaxCols df1 df2))
          (buildIndex df2 k (diffMaxCols df1 df2)) (diffMaxCols df1 df2) true) := by
    refine List.map_congr_left (fun key _ => ?_)
    simp only [Function.comp_apply]
    exact keyRow_swap _ _ _ key
  rw [hcongr]
  exact (allKeys_swap_perm df1 df2 k (diffMaxCols df1 df2)).map _

/-- C1 counterexample: the claim as stated fails twice.  Under key matching
(`case_sensitive = true`) with A = rows x,y and B = rows y,x, every row of
diff(A,B) is `same`, yet the row at position 0 of diff(B,A) differs from the
row at position 0 of diff(A,B) — a `Same` row does not keep its position.
And with `case_sensitive = false` on `"Foo"` vs `"foo"`, the row of
diff(A,B) is `same` but the corresponding row of diff(B,A) carries different
cell values ("Foo" instead of "foo") — a `Same` row does not keep its cell
values. -/
theorem c1_counterexample :
    (((compare_dataframes ⟨["k"], [["x"], ["y"]]⟩ ⟨["k"], [["y"], ["x"]]⟩
        (some 0) true).rows.getD 0 ⟨CellStatus.same, []⟩).status = CellStatus.same ∧
      (compare_dataframes ⟨["k"], [["y"], ["x"]]⟩ ⟨["k"], [["x"], ["y"]]⟩
        (some 0) true).rows.getD 0 ⟨CellStatus.same, []⟩ ≠
        (compare_dataframes ⟨["k"], [["x"], ["y"]]⟩ ⟨["k"], [["y"], ["x"]]⟩
          (some 0) true).rows.getD 0 ⟨CellStatus.same, []⟩) ∧
    (((compare_dataframes ⟨["h"], [["Foo"]]⟩ ⟨["h"], [["foo"]]⟩
        none false).rows.getD 0 ⟨CellStatus.same, []⟩).status = CellStatus.same ∧
      (compare_dataframes ⟨["h"], [["foo"]]⟩ ⟨["h"], [["Foo"]]⟩
        none false).rows.getD 0 ⟨CellStatus.same, []⟩ ≠
        (compare_dataframes ⟨["h"], [["Foo"]]⟩ ⟨["h"], [["foo"]]⟩
          none false).rows.getD 0 ⟨CellStatus.same, []⟩) := by
  decide

/-- C1 (amended): with `case_sensitive = true`, swapping the two inputs
mirrors the diff — `added` and `deleted` swap on rows and cells, `modified`
cells swap `value` and `old_value`, `same` rows are unchanged.  Under
positional matching the mirrored rows appear at the same positions; under
key matching (any key-column argument) they appear as a permutation,
matched by key rather than by position. -/
theorem c1_swap_inputs_amended (df1 df2 : DataFrame) :
    ((compare_dataframes df2 df1 none true).rows =
      (compare_dataframes df1 df2 none true).rows.map mirrorRow) ∧
    (∀ kc : Option Int,
      List.Perm (compare_dataframes df2 df1 kc true).rows
        ((compare_dataframes df1 df2 kc true).rows.map mirrorRow)) := by
  have hpos : (compare_dataframes df2 df1 none true).rows =
      (compare_dataframes df1 df2 none true).rows.map mirrorRow := by
    rw [compare_dataframes_none, compare_dataframes_none]
    exact positional_rows_swap df1 df2
  refine ⟨hpos, ?_⟩
  intro kc
  cases kc with
  | none =>
    rw [hpos]
  | some kcv =>
    by_cases hv : 0 ≤ kcv ∧ kcv < (diffMaxCols df1 df2 : Int)
    · have hvalid1 : compare_dataframes df1 df2 (some kcv) true =
          keyed_diff df1 df2 kcv.toNat (diffMaxCols df1 df2) true
            (diffHeaders df1 df2) := by
        rw [show (some kcv : Option Int) = some ((kcv.toNat : Nat) : Int) by
          rw [Int.toNat_of_nonneg hv.1]]
        exact compare_dataframes_some_valid df1 df2 kcv.toNat true (by omega)
      have hvalid2 : compare_dataframes df2 df1 (some kcv) true =
          keyed_diff df2 df1 kcv.toNat (diffMaxCols df2 df1) true
            (diffHeaders df2 df1) := by
        rw [show (some kcv : Option Int) = some ((kcv.toNat : Nat) : Int) by
          rw [Int.toNat_of_nonneg hv.1]]
        exact compare_dataframes_some_valid df2 df1 kcv.toNat true
          (by rw [diffMaxCols_comm]; omega)
      rw [hvalid1, hvalid2]
      exact keyed_rows_swap df1 df2 kcv.toNat
    · have hinv1 : compare_dataframes df1 df2 (some kcv) true =
          positional_diff df1 df2 (diffMaxCols df1 df2) true (diffHeaders df1 df2) :=
        compare_dataframes_some_invalid df1 df2 kcv true (by omega)
      have hinv2 : compare_dataframes df2 df1 (some kcv) true =
          positional_diff df2 df1 (diffMaxCols df2 df1) true (diffHeaders df2 df1) :=
        compare_dataframes_some_invalid df2 df1 kcv true
          (by rw [diffMaxCols_comm]; omega)
      rw [hinv1, hinv2, positional_rows_swap df1 df2]

theorem c4_witness :
    ((compare_cells ["Foo"] ["foo"] 1 true).getD 0 ⟨"", none, CellStatus.same⟩).value =
      (["foo"] : List String).getD 0 "" ∧
    ((compare_cells ["Foo"] ["foo"] 1 true).getD 0 ⟨"", none, CellStatus.same⟩).old_value =
      (if compare_values ((["Foo"] : List String).getD 0 "")
          ((["foo"] : List String).getD 0 "") true then none
       else some ((["Foo"] : List String).getD 0 "")) :=
  c4_cell_comparator.2.2.2.1 ["Foo"] ["foo"] 1 true 0 (by decide)

end ExcelDiff
